import Mathlib

/-!
Verification development for the zkLogin workflow orchestrator
(src/lib/providers/index.ts, src/lib/utils/index.ts, src/lib/storage
`BrowserStorage` / `BrowserSessionStorage` / `STORAGE_KEYS`).

Shallow embedding conventions:
* External adapters (chain RPC, salt service, prover, faucet, the
  `jwt-decode` library, `JSON.parse` / `JSON.stringify`, the sui keypair
  and address-derivation library) are modelled as oracle values or
  oracle functions supplied in an `Oracles` / `RestoreOracles` record;
  a fallible external call is an `Except String` outcome.
* JavaScript numbers used for epochs and timestamps are modelled as `Int`.
* JavaScript truthiness tests on strings (empty string is falsy) are
  modelled by `truthy`.
* `async` methods are modelled as state transformers; a fire-and-forget
  chained invocation (`this.generateSalt()` without `await`) is modelled
  by running the chained step to completion after the current one, while
  the own result (`res`) of the current operation is the value it returned
  or the error it threw, never that of the chained step.
-/

/-- Payload of a decoded identity token.  Only the claims the repository
reads (`exp`, `sub`, `aud`) are modelled; the `aud` value is the string
the code ends up using (for an array claim the code selects element 0,
that selection is folded into the oracle that produces the payload). -/
structure JwtPayload where
  exp : Option Int
  sub : Option String
  aud : Option String
deriving Repr, DecidableEq

/-- Source `JwtState` from src/lib/types/index.ts. -/
structure JwtState where
  token : String
  payload : JwtPayload
  isValid : Bool
  expiresAt : Int
deriving Repr, DecidableEq

/-- An ephemeral keypair, identified by its secret key string
(`keyPair.getSecretKey()` is what the code persists). -/
structure KeyPairO where
  secretKey : String
deriving Repr, DecidableEq

/-- Source `EphemeralKeyPairState` from src/lib/types/index.ts. -/
structure EphemeralKeyPairState where
  keyPair : KeyPairO
  maxEpoch : Int
  randomness : String
  nonce : String
deriving Repr, DecidableEq

/-- Source `UserSaltState` from src/lib/types/index.ts. -/
structure UserSaltState where
  salt : String
  createdAt : Int
deriving Repr, DecidableEq

/-- Source `ZkLoginAddressState` from src/lib/types/index.ts. -/
structure ZkLoginAddressState where
  address : String
  addressSeed : String
  balance : Option String
deriving Repr, DecidableEq

/-- Source `ZkProofData`: the proof bundle is opaque to the orchestrator
(spec section 3); it is modelled by an identity-carrying payload. -/
structure ZkProofData where
  raw : String
deriving Repr, DecidableEq

/-- Source `ZkLoginState` from src/lib/types/index.ts. -/
structure ZkLoginState where
  currentStep : Nat
  ephemeralKeyPair : Option EphemeralKeyPairState
  jwt : Option JwtState
  userSalt : Option UserSaltState
  zkLoginAddress : Option ZkLoginAddressState
  zkProof : Option ZkProofData
  isReady : Bool
  error : Option String
deriving Repr, DecidableEq

/-- The notifications published by the client (`ZkLoginEvents`). -/
inductive Event where
  | stepChanged (k : Nat)
  | keypairGenerated (kp : EphemeralKeyPairState)
  | jwtReceived (j : JwtState)
  | saltGenerated (u : UserSaltState)
  | addressGenerated (a : ZkLoginAddressState)
  | proofReceived (p : ZkProofData)
  | error (msg : String)
  | ready
deriving Repr, DecidableEq

/-- JavaScript truthiness of a nullable string: `null` and the empty
string are falsy. -/
def truthy : Option String → Bool
  | none => false
  | some s => s != ""

/-- JavaScript truthiness of a nullable number: `undefined` and `0` are
falsy. -/
def truthyInt : Option Int → Bool
  | none => false
  | some n => n != 0

/-! ## Key-value store (src storage module)

`localStorage` / `sessionStorage` are modelled as association lists of
full keys; `BrowserStorage` prefixes every key with its configured
prefix string, and `clear` removes every raw key that starts with the
prefix, exactly as the source iterates `Object.keys(...)`. -/

abbrev RawStore := List (String × String)

/-- Source `getItem` on the raw backing store. -/
def rawGet (d : RawStore) (k : String) : Option String :=
  match d.find? (fun kv => kv.1 == k) with
  | some kv => some kv.2
  | none => none

/-- Source `setItem` on the raw backing store (replaces any previous binding). -/
def rawSet (d : RawStore) (k v : String) : RawStore :=
  (k, v) :: d.filter (fun kv => kv.1 != k)

/-- Source `removeItem` on the raw backing store. -/
def rawRemove (d : RawStore) (k : String) : RawStore :=
  d.filter (fun kv => kv.1 != k)

/-- A prefixed store (`BrowserStorage` / `BrowserSessionStorage` /
`MemoryStorage`): the configured prefix plus the raw backing data. -/
structure PrefStore where
  pfx : String
  data : RawStore
deriving Repr, DecidableEq

def PrefStore.get (st : PrefStore) (k : String) : Option String :=
  rawGet st.data (st.pfx ++ k)

def PrefStore.set (st : PrefStore) (k v : String) : PrefStore :=
  { st with data := rawSet st.data (st.pfx ++ k) v }

def PrefStore.remove (st : PrefStore) (k : String) : PrefStore :=
  { st with data := rawRemove st.data (st.pfx ++ k) }

/-- Source `key.startsWith(prefix)`, computed over the character lists (the
same boolean function as `String.isPrefixOf`, in a form the kernel can
evaluate). -/
def strStartsWith (p k : String) : Bool := p.data.isPrefixOf k.data

/-- Source `clear()`: removes every raw key that starts with the prefix. -/
def PrefStore.clear (st : PrefStore) : PrefStore :=
  { st with data := st.data.filter (fun kv => !(strStartsWith st.pfx kv.1)) }

namespace STORAGE_KEYS

def EPHEMERAL_KEYPAIR : String := "ephemeral_keypair"
def MAX_EPOCH : String := "max_epoch"
def RANDOMNESS : String := "randomness"
def USER_SALT : String := "user_salt"
def JWT_TOKEN : String := "jwt_token"
def ZKLOGIN_ADDRESS : String := "zklogin_address"
def ZK_PROOF : String := "zk_proof"

end STORAGE_KEYS

/-! ## Utility functions (src/lib/utils/index.ts) -/

namespace Utils

/-- Source `calculateMaxEpoch`: current epoch plus the fixed window of 10. -/
def calculateMaxEpoch (currentEpoch : Int) : Int :=
  currentEpoch + 10

/-- Oracle for `Ed25519Keypair.generate()` / `generateRandomness()` /
`generateNonce(...)` of one keypair-generation call. -/
structure KeygenOracle where
  keyPair : KeyPairO
  randomness : String
  nonce : String
deriving Repr, DecidableEq

/-- Source `generateEphemeralKeyPair` (the utility): packages the freshly
generated keypair, randomness and nonce together with `maxEpoch`. -/
def generateEphemeralKeyPair (kg : KeygenOracle) (maxEpoch : Int) : EphemeralKeyPairState :=
  { keyPair := kg.keyPair, maxEpoch := maxEpoch, randomness := kg.randomness,
    nonce := kg.nonce }

/-- Source `decodeJwtToken`: decodes via the `jwt-decode` library (oracle
`decode`), then computes `isValid` from the `exp` claim compared with
the current time `now` (milliseconds, `Date.now()`), and `expiresAt`.
The JavaScript test `Date.now() / 1000 < payload.exp` is the exact
integer comparison `now < exp * 1000`; a missing or zero `exp` claim is
falsy, giving `isValid = false` and `expiresAt = 0`. -/
def decodeJwtToken (decode : String → Except String JwtPayload) (now : Int)
    (token : String) : Except String JwtState :=
  match decode token with
  | .error e => .error ("Invalid JWT token: " ++ e)
  | .ok payload =>
      let isValid := if truthyInt payload.exp then decide (now < (payload.exp.getD 0) * 1000) else false
      let expiresAt := if truthyInt payload.exp then (payload.exp.getD 0) * 1000 else 0
      .ok { token := token, payload := payload, isValid := isValid, expiresAt := expiresAt }

/-- Source `generateZkLoginAddress`: derives the address via the external
`jwtToAddress` (oracle), decodes the token, requires truthy `sub` and
`aud` claims, and derives the address seed via the external
`genAddressSeed` composed with `BigInt(userSalt)` (oracle `genSeed`,
fallible because `BigInt` throws on a non-numeric salt).  Every failure
is wrapped with the prefix used by the source. -/
def generateZkLoginAddress (jwtToAddr : String → String → Except String String)
    (decode : String → Except String JwtPayload)
    (genSeed : String → String → String → Except String String)
    (jwt userSalt : String) : Except String ZkLoginAddressState :=
  match jwtToAddr jwt userSalt with
  | .error e => .error ("Failed to generate zkLogin address: " ++ e)
  | .ok address =>
      match decode jwt with
      | .error e => .error ("Failed to generate zkLogin address: " ++ e)
      | .ok payload =>
          if !(truthy payload.sub) || !(truthy payload.aud) then
            .error "Failed to generate zkLogin address: JWT missing required claims (sub, aud)"
          else
            match genSeed userSalt (payload.sub.getD "") (payload.aud.getD "") with
            | .error e => .error ("Failed to generate zkLogin address: " ++ e)
            | .ok seed => .ok { address := address, addressSeed := seed, balance := none }

/-- Source `getAddressBalance`: returns the chain result, or the string "0"
when the chain call threw (the catch-all in the source). -/
def getAddressBalance (balanceRes : Except String String) : String :=
  match balanceRes with
  | .ok b => b
  | .error _ => "0"

end Utils

/-- Source `ZkLoginError` from src/lib/utils/index.ts: message plus optional
stable code and step number. -/
structure ZkLoginError where
  msg : String
  code : Option String
  step : Option Nat
deriving Repr, DecidableEq

/-! ## The orchestrator (class `ZkLoginClient`) -/

/-- Outcomes of all external-adapter calls one invocation chain can
make, plus the serializers (`JSON.stringify`) and the clock. -/
structure Oracles where
  epochRes : Except String Int
  keygen : Utils.KeygenOracle
  saltRes : Option String → Except String String
  jwtToAddr : String → String → Except String String
  genSeed : String → String → String → Except String String
  balanceRes : Except String String
  proofRes : Except String ZkProofData
  faucetRes : Except String Unit
  signRes : Except String Unit
  execRes : Except String String
  decode : String → Except String JwtPayload
  now : Int
  serSalt : UserSaltState → String
  serAddr : ZkLoginAddressState → String
  serProof : ZkProofData → String

/-- Result of invoking one client operation: the in-memory state, the
two stores, the notifications published, the external calls issued (in
order), and the value the operation returned or the error it threw. -/
structure StepResult (α : Type) where
  state : ZkLoginState
  session : PrefStore
  durable : PrefStore
  events : List Event
  calls : List String
  res : Except ZkLoginError α

namespace ZkLoginClient

/-- Source `handleError`: records the message into `state.error`, overwrites
`currentStep` with the failing step number when one is given, and emits
an `error` notification. -/
def handleError (s : ZkLoginState) (msg : String) (st : Option Nat) :
    ZkLoginState × List Event :=
  let s1 := { s with error := some msg }
  let s2 := match st with
    | some k => { s1 with currentStep := k }
    | none => s1
  (s2, [Event.error msg])

/-- The catch-block shared by every step: `handleError` followed by
throwing a step-tagged `ZkLoginError`. -/
def failStep {α : Type} (s : ZkLoginState) (session durable : PrefStore)
    (calls : List String) (msg code : String) (k : Nat) : StepResult α :=
  let he := handleError s msg (some k)
  { state := he.1, session := session, durable := durable, events := he.2,
    calls := calls, res := .error { msg := msg, code := some code, step := some k } }

/-- Step 6 `getZkProof`: requires key material, token and salt in the
in-memory state, calls the prover, persists the proof to the session
store, advances `currentStep` to at least 6 and sets `isReady`. -/
def getZkProof (s : ZkLoginState) (session durable : PrefStore) (o : Oracles) :
    StepResult ZkProofData :=
  match s.ephemeralKeyPair with
  | none => failStep s session durable []
      "Failed to get ZK proof: Ephemeral key pair not available" "ZK_PROOF_FAILED" 6
  | some _ =>
    match s.jwt with
    | none => failStep s session durable []
        "Failed to get ZK proof: JWT not available" "ZK_PROOF_FAILED" 6
    | some _ =>
      match s.userSalt with
      | none => failStep s session durable []
          "Failed to get ZK proof: User salt not available" "ZK_PROOF_FAILED" 6
      | some _ =>
        match o.proofRes with
        | .error e => failStep s session durable ["prover"]
            ("Failed to get ZK proof: " ++ e) "ZK_PROOF_FAILED" 6
        | .ok zp =>
          let session1 := session.set STORAGE_KEYS.ZK_PROOF (o.serProof zp)
          let s1 := { s with
            zkProof := some zp,
            currentStep := max s.currentStep 6,
            isReady := true }
          { state := s1, session := session1, durable := durable,
            events := [Event.proofReceived zp, Event.stepChanged s1.currentStep, Event.ready],
            calls := ["prover"], res := .ok zp }

/-- Step 5 `generateAddress`: requires token and salt in the in-memory
state, derives the address, fetches the balance (never fatal), persists
to the durable store, advances to at least 5, then fire-and-forgets
`getZkProof`. -/
def generateAddress (s : ZkLoginState) (session durable : PrefStore) (o : Oracles) :
    StepResult ZkLoginAddressState :=
  match s.jwt with
  | none => failStep s session durable []
      "Failed to generate address: JWT not available" "ADDRESS_GENERATION_FAILED" 5
  | some j =>
    match s.userSalt with
    | none => failStep s session durable []
        "Failed to generate address: User salt not generated" "ADDRESS_GENERATION_FAILED" 5
    | some u =>
      match Utils.generateZkLoginAddress o.jwtToAddr o.decode o.genSeed j.token u.salt with
      | .error e => failStep s session durable []
          ("Failed to generate address: " ++ e) "ADDRESS_GENERATION_FAILED" 5
      | .ok core =>
        let balance := Utils.getAddressBalance o.balanceRes
        let addrState := { core with balance := some balance }
        let durable1 := durable.set STORAGE_KEYS.ZKLOGIN_ADDRESS (o.serAddr addrState)
        let s1 := { s with
          zkLoginAddress := some addrState,
          currentStep := max s.currentStep 5 }
        let chain := getZkProof s1 session durable1 o
        { state := chain.state, session := chain.session, durable := chain.durable,
          events := [Event.addressGenerated addrState, Event.stepChanged s1.currentStep]
            ++ chain.events,
          calls := ["balance"] ++ chain.calls, res := .ok addrState }

/-- Step 4 `generateSalt`: performs no precondition check; reads the
token from the session store (possibly absent) and posts it to the salt
service unconditionally; on success persists to the durable store,
advances to at least 4, then fire-and-forgets `generateAddress`. -/
def generateSalt (s : ZkLoginState) (session durable : PrefStore) (o : Oracles) :
    StepResult UserSaltState :=
  let jwtToken := session.get STORAGE_KEYS.JWT_TOKEN
  match o.saltRes jwtToken with
  | .error e => failStep s session durable ["saltService"]
      ("Failed to generate salt: " ++ e) "SALT_GENERATION_FAILED" 4
  | .ok salt =>
    let saltState : UserSaltState := { salt := salt, createdAt := o.now }
    let durable1 := durable.set STORAGE_KEYS.USER_SALT (o.serSalt saltState)
    let s1 := { s with userSalt := some saltState, currentStep := max s.currentStep 4 }
    let chain := generateAddress s1 session durable1 o
    { state := chain.state, session := chain.session, durable := chain.durable,
      events := [Event.saltGenerated saltState, Event.stepChanged s1.currentStep]
        ++ chain.events,
      calls := ["saltService"] ++ chain.calls, res := .ok saltState }

/-- The result of `parseOAuthCallback` on the return URL (URL splitting
itself is a browser builtin and is modelled at this boundary). -/
structure CallbackParams where
  id_token : Option String
  access_token : Option String
  state : Option String
  error : Option String
deriving Repr, DecidableEq

/-- Step 3 `handleOAuthCallback`: validates the parsed callback
(`error` absent, `id_token` truthy), decodes the token, persists the
raw token to the session store, advances to at least 3, then
fire-and-forgets `generateSalt`. -/
def handleOAuthCallback (s : ZkLoginState) (session durable : PrefStore) (o : Oracles)
    (params : CallbackParams) : StepResult JwtState :=
  if truthy params.error then
    failStep s session durable []
      ("Failed to handle OAuth callback: OAuth error: " ++ params.error.getD "")
      "OAUTH_CALLBACK_FAILED" 3
  else if !(truthy params.id_token) then
    failStep s session durable []
      "Failed to handle OAuth callback: No id_token received from OAuth provider"
      "OAUTH_CALLBACK_FAILED" 3
  else
    let tok := params.id_token.getD ""
    match Utils.decodeJwtToken o.decode o.now tok with
    | .error e => failStep s session durable []
        ("Failed to handle OAuth callback: " ++ e) "OAUTH_CALLBACK_FAILED" 3
    | .ok jwtState =>
      let session1 := session.set STORAGE_KEYS.JWT_TOKEN tok
      let s1 := { s with jwt := some jwtState, currentStep := max s.currentStep 3 }
      let chain := generateSalt s1 session1 durable o
      { state := chain.state, session := chain.session, durable := chain.durable,
        events := [Event.jwtReceived jwtState, Event.stepChanged s1.currentStep]
          ++ chain.events,
        calls := chain.calls, res := .ok jwtState }

/-- Step 1 `generateEphemeralKeyPair` (the client method): fetches the
current epoch, computes `maxEpoch`, generates the key material,
persists the three key-material fragments to the session store and
advances `currentStep` to at least 1. -/
def generateEphemeralKeyPair (s : ZkLoginState) (session durable : PrefStore)
    (o : Oracles) : StepResult EphemeralKeyPairState :=
  match o.epochRes with
  | .error e => failStep s session durable ["epoch"]
      ("Failed to generate ephemeral key pair: " ++ e) "KEYPAIR_GENERATION_FAILED" 1
  | .ok currentEpoch =>
    let maxEpoch := Utils.calculateMaxEpoch currentEpoch
    let kps := Utils.generateEphemeralKeyPair o.keygen maxEpoch
    let session1 :=
      ((session.set STORAGE_KEYS.EPHEMERAL_KEYPAIR kps.keyPair.secretKey).set
        STORAGE_KEYS.MAX_EPOCH (toString maxEpoch)).set STORAGE_KEYS.RANDOMNESS kps.randomness
    let s1 := { s with ephemeralKeyPair := some kps, currentStep := max s.currentStep 1 }
    { state := s1, session := session1, durable := durable,
      events := [Event.keypairGenerated kps, Event.stepChanged s1.currentStep],
      calls := ["epoch"], res := .ok kps }

/-- OAuth provider selector (`ZkLoginProvider`). -/
inductive Provider where
  | google | facebook | twitch | apple | custom
deriving Repr, DecidableEq

/-- The `authUrl` each provider is configured with in `OAUTH_PROVIDERS`
(the `custom` entry has an empty url, which the `OAuthProvider`
constructor rejects). -/
def authUrlOf : Provider → String
  | .google => "https://accounts.google.com/o/oauth2/v2/auth"
  | .facebook => "https://www.facebook.com/v18.0/dialog/oauth"
  | .twitch => "https://id.twitch.tv/oauth2/authorize"
  | .apple => "https://appleid.apple.com/auth/authorize"
  | .custom => ""

/-- Step 2 `redirectToOAuth`: requires key material; building the
provider throws for an empty `authUrl`.  On success the process
navigates away (the returned value is the base url navigated to; the
query-string assembly is a browser builtin and not modelled) and the
local state does not change. -/
def redirectToOAuth (s : ZkLoginState) (session durable : PrefStore)
    (provider : Provider) : StepResult String :=
  match s.ephemeralKeyPair with
  | none => failStep s session durable []
      "Failed to redirect to OAuth: Ephemeral key pair not generated yet"
      "OAUTH_REDIRECT_FAILED" 2
  | some _ =>
    if authUrlOf provider == "" then
      failStep s session durable []
        "Failed to redirect to OAuth: Invalid provider" "OAUTH_REDIRECT_FAILED" 2
    else
      { state := s, session := session, durable := durable, events := [],
        calls := [], res := .ok (authUrlOf provider) }

/-- Source `executeTransaction`: requires `isReady` plus the key material,
proof and address records; signs and submits; returns the digest; never
changes `currentStep` on success. -/
def executeTransaction (s : ZkLoginState) (session durable : PrefStore)
    (o : Oracles) : StepResult String :=
  if s.isReady = false then
    failStep s session durable []
      "Failed to execute transaction: ZkLogin not ready. Complete all steps first."
      "TRANSACTION_EXECUTION_FAILED" 7
  else
    match s.ephemeralKeyPair with
    | none => failStep s session durable []
        "Failed to execute transaction: Missing required state for transaction execution"
        "TRANSACTION_EXECUTION_FAILED" 7
    | some _ =>
      match s.zkProof with
      | none => failStep s session durable []
          "Failed to execute transaction: Missing required state for transaction execution"
          "TRANSACTION_EXECUTION_FAILED" 7
      | some _ =>
        match s.zkLoginAddress with
        | none => failStep s session durable []
            "Failed to execute transaction: Missing required state for transaction execution"
            "TRANSACTION_EXECUTION_FAILED" 7
        | some _ =>
          match o.signRes with
          | .error e => failStep s session durable ["sign"]
              ("Failed to execute transaction: " ++ e) "TRANSACTION_EXECUTION_FAILED" 7
          | .ok _ =>
            match o.execRes with
            | .error e => failStep s session durable ["sign", "execute"]
                ("Failed to execute transaction: " ++ e) "TRANSACTION_EXECUTION_FAILED" 7
            | .ok digest =>
              { state := s, session := session, durable := durable, events := [],
                calls := ["sign", "execute"], res := .ok digest }

/-- Source `requestTestTokens`: requires the address record; calls the faucet,
then refreshes the cached balance; its `handleError` carries no step
number, so `currentStep` is untouched on failure. -/
def requestTestTokens (s : ZkLoginState) (session durable : PrefStore)
    (o : Oracles) : StepResult Unit :=
  match s.zkLoginAddress with
  | none =>
    let msg := "Failed to request test tokens: ZkLogin address not generated"
    let he := handleError s msg none
    { state := he.1, session := session, durable := durable, events := he.2,
      calls := [], res := .error { msg := msg, code := some "FAUCET_REQUEST_FAILED", step := none } }
  | some addr =>
    match o.faucetRes with
    | .error e =>
      let msg := "Failed to request test tokens: " ++ e
      let he := handleError s msg none
      { state := he.1, session := session, durable := durable, events := he.2,
        calls := ["faucet"],
        res := .error { msg := msg, code := some "FAUCET_REQUEST_FAILED", step := none } }
    | .ok _ =>
      let balance := Utils.getAddressBalance o.balanceRes
      let s1 := { s with zkLoginAddress := some { addr with balance := some balance } }
      { state := s1, session := session, durable := durable, events := [],
        calls := ["faucet", "balance"], res := .ok () }

/-- Source `refreshBalance`: requires the address record (throws a plain,
untagged error otherwise, without `handleError`); the balance fetch
itself never throws. -/
def refreshBalance (s : ZkLoginState) (session durable : PrefStore)
    (o : Oracles) : StepResult String :=
  match s.zkLoginAddress with
  | none =>
    { state := s, session := session, durable := durable, events := [], calls := [],
      res := .error { msg := "ZkLogin address not generated", code := none, step := none } }
  | some addr =>
    let balance := Utils.getAddressBalance o.balanceRes
    let s1 := { s with zkLoginAddress := some { addr with balance := some balance } }
    { state := s1, session := session, durable := durable, events := [],
      calls := ["balance"], res := .ok balance }

/-- The fresh in-memory state the constructor and `reset` install. -/
def initState : ZkLoginState :=
  { currentStep := 0, ephemeralKeyPair := none, jwt := none, userSalt := none,
    zkLoginAddress := none, zkProof := none, isReady := false, error := none }

/-- Source `reset`: clears both stores, reinstalls the fresh state, then
fire-and-forgets step 1; `reset` itself returns without a value. -/
def reset (_s : ZkLoginState) (session durable : PrefStore) (o : Oracles) :
    StepResult Unit :=
  let durable1 := durable.clear
  let session1 := session.clear
  let chain := generateEphemeralKeyPair initState session1 durable1 o
  { state := chain.state, session := chain.session, durable := chain.durable,
    events := chain.events, calls := chain.calls, res := .ok () }

end ZkLoginClient

namespace ZkLoginClient

/-- Oracles for the external parsers restoration relies on:
`Ed25519Keypair.fromSecretKey` (throws on a malformed persisted key),
`parseInt`, `jwt-decode`, the clock, and `JSON.parse` of the three
structured fragments. -/
structure RestoreOracles where
  fromSecretKey : String → Except String KeyPairO
  parseIntFn : String → Int
  decode : String → Except String JwtPayload
  now : Int
  parseSalt : String → Except String UserSaltState
  parseAddr : String → Except String ZkLoginAddressState
  parseProof : String → Except String ZkProofData

/-- Result of `restoreState`: the state, the two stores (corrupted
fragments removed), and whether the missing-key-material branch
fire-and-forgot a fresh `generateEphemeralKeyPair`. -/
structure RestoreOut where
  state : ZkLoginState
  session : PrefStore
  durable : PrefStore
  regen : Bool
deriving Repr, DecidableEq

/-- Token fragment: attempted decode; on failure the stored fragment is
removed and `state.jwt` stays absent. -/
def restoreJwt (s : ZkLoginState) (session : PrefStore) (ro : RestoreOracles) :
    ZkLoginState × PrefStore :=
  let jt := session.get STORAGE_KEYS.JWT_TOKEN
  if truthy jt then
    match Utils.decodeJwtToken ro.decode ro.now (jt.getD "") with
    | .ok j => ({ s with jwt := some j, currentStep := max s.currentStep 3 }, session)
    | .error _ => (s, session.remove STORAGE_KEYS.JWT_TOKEN)
  else (s, session)

/-- Salt fragment: attempted `JSON.parse`; a parse failure removes the
fragment; success bumps `currentStep` to at least 4. -/
def restoreSalt (s : ZkLoginState) (durable : PrefStore) (ro : RestoreOracles) :
    ZkLoginState × PrefStore :=
  let us := durable.get STORAGE_KEYS.USER_SALT
  if truthy us then
    match ro.parseSalt (us.getD "") with
    | .ok u => ({ s with userSalt := some u, currentStep := max s.currentStep 4 }, durable)
    | .error _ => (s, durable.remove STORAGE_KEYS.USER_SALT)
  else (s, durable)

/-- Address fragment: attempted `JSON.parse`; a parse failure removes
the fragment; success bumps `currentStep` to at least 5. -/
def restoreAddr (s : ZkLoginState) (durable : PrefStore) (ro : RestoreOracles) :
    ZkLoginState × PrefStore :=
  let astr := durable.get STORAGE_KEYS.ZKLOGIN_ADDRESS
  if truthy astr then
    match ro.parseAddr (astr.getD "") with
    | .ok a => ({ s with zkLoginAddress := some a, currentStep := max s.currentStep 5 }, durable)
    | .error _ => (s, durable.remove STORAGE_KEYS.ZKLOGIN_ADDRESS)
  else (s, durable)

/-- Proof fragment: attempted `JSON.parse`; success bumps `currentStep`
to at least 6 and sets `isReady`; failure removes the fragment and
leaves `isReady` untouched. -/
def restoreProof (s : ZkLoginState) (session : PrefStore) (ro : RestoreOracles) :
    ZkLoginState × PrefStore :=
  let zps := session.get STORAGE_KEYS.ZK_PROOF
  if truthy zps then
    match ro.parseProof (zps.getD "") with
    | .ok zp =>
      ({ s with
          zkProof := some zp,
          currentStep := max s.currentStep 6,
          isReady := true }, session)
    | .error _ => (s, session.remove STORAGE_KEYS.ZK_PROOF)
  else (s, session)

/-- The restoration sequence after the key-material branch. -/
def restoreTail (s : ZkLoginState) (session durable : PrefStore)
    (ro : RestoreOracles) (regen : Bool) : RestoreOut :=
  let p1 := restoreJwt s session ro
  let p2 := restoreSalt p1.1 durable ro
  let p3 := restoreAddr p2.1 p2.2 ro
  let p4 := restoreProof p3.1 p1.2 ro
  { state := p4.1, session := p4.2, durable := p3.2, regen := regen }

/-- Source `restoreState`: reads the three key-material fragments; if all are
truthy it rebuilds the keypair (the nonce is not restorable and is set
empty) — but `fromSecretKey` can throw on a corrupted fragment, and
that throw is caught only by the whole-method try/catch, so the
remaining fragments are then skipped entirely.  If any fragment is
missing, step 1 is fire-and-forgotten (`regen`) and restoration
continues.  Each restored fragment bumps `currentStep` to at least its
own step number via a monotonic max. -/
def restoreState (s : ZkLoginState) (session durable : PrefStore)
    (ro : RestoreOracles) : RestoreOut :=
  let pk := session.get STORAGE_KEYS.EPHEMERAL_KEYPAIR
  let me := session.get STORAGE_KEYS.MAX_EPOCH
  let rd := session.get STORAGE_KEYS.RANDOMNESS
  if truthy pk && truthy me && truthy rd then
    match ro.fromSecretKey (pk.getD "") with
    | .error _ => { state := s, session := session, durable := durable, regen := false }
    | .ok kp =>
      let s1 := { s with
        ephemeralKeyPair := some
          { keyPair := kp, maxEpoch := ro.parseIntFn (me.getD ""),
            randomness := rd.getD "", nonce := "" },
        currentStep := max s.currentStep 1 }
      restoreTail s1 session durable ro false
  else
    restoreTail s session durable ro true

end ZkLoginClient

/-! ## Notification bus (class `EventEmitter`) -/

namespace EventEmitter

/-- A subscribed handler: it either returns or throws. -/
def Handler (α : Type) : Type := α → Except String Unit

/-- What `emit` does with one listener inside its try/catch: the
handler either completes or its exception is caught (and logged). -/
inductive HandlerOutcome where
  | ok
  | caught (msg : String)
deriving Repr, DecidableEq

def runHandler {α : Type} (h : Handler α) (a : α) : HandlerOutcome :=
  match h a with
  | .ok _ => .ok
  | .error m => .caught m

/-- Source `on`: appends the listener to the subscription list of the event
(`on` is a reserved word in Lean, hence the name `onSub`). -/
def onSub {α : Type} (ls : List (Handler α)) (h : Handler α) : List (Handler α) :=
  ls ++ [h]

/-- Source `emit`: walks the subscription list front to back, running each
listener inside a try/catch; it returns the per-listener outcomes and
can itself never throw. -/
def emit {α : Type} (ls : List (Handler α)) (a : α) : List HandlerOutcome :=
  match ls with
  | [] => []
  | h :: rest => runHandler h a :: emit rest a

end EventEmitter

/-! ## Reachable worlds

A `World` is the in-memory state together with the two stores.  A world
is reachable when it arises from constructor-time restoration (from
arbitrary store contents) followed by any sequence of operation
invocations with arbitrary adapter outcomes; this is a superset of the
actual single-threaded traces (fire-and-forget chaining is covered
because every chained step is itself an operation). -/

structure World where
  state : ZkLoginState
  session : PrefStore
  durable : PrefStore
deriving Repr, DecidableEq

def StepResult.world {α : Type} (r : StepResult α) : World :=
  { state := r.state, session := r.session, durable := r.durable }

def ZkLoginClient.RestoreOut.world (r : ZkLoginClient.RestoreOut) : World :=
  { state := r.state, session := r.session, durable := r.durable }

open ZkLoginClient in
inductive Reachable : World → Prop where
  | init (session durable : PrefStore) (ro : RestoreOracles) :
      Reachable (RestoreOut.world (restoreState initState session durable ro))
  | stepKeypair (w : World) (o : Oracles) : Reachable w →
      Reachable (StepResult.world (generateEphemeralKeyPair w.state w.session w.durable o))
  | stepRedirect (w : World) (p : Provider) : Reachable w →
      Reachable (StepResult.world (redirectToOAuth w.state w.session w.durable p))
  | stepCallback (w : World) (o : Oracles) (params : CallbackParams) : Reachable w →
      Reachable (StepResult.world (handleOAuthCallback w.state w.session w.durable o params))
  | stepSalt (w : World) (o : Oracles) : Reachable w →
      Reachable (StepResult.world (generateSalt w.state w.session w.durable o))
  | stepAddress (w : World) (o : Oracles) : Reachable w →
      Reachable (StepResult.world (generateAddress w.state w.session w.durable o))
  | stepProof (w : World) (o : Oracles) : Reachable w →
      Reachable (StepResult.world (getZkProof w.state w.session w.durable o))
  | stepExec (w : World) (o : Oracles) : Reachable w →
      Reachable (StepResult.world (executeTransaction w.state w.session w.durable o))
  | stepFaucet (w : World) (o : Oracles) : Reachable w →
      Reachable (StepResult.world (requestTestTokens w.state w.session w.durable o))
  | stepRefresh (w : World) (o : Oracles) : Reachable w →
      Reachable (StepResult.world (refreshBalance w.state w.session w.durable o))
  | stepReset (w : World) (o : Oracles) : Reachable w →
      Reachable (StepResult.world (reset w.state w.session w.durable o))

/-! ## Concrete fixtures used by witnesses and counterexamples -/

open ZkLoginClient

/-- A keypair-generation outcome. -/
def kg0 : Utils.KeygenOracle :=
  { keyPair := { secretKey := "sk" }, randomness := "rand", nonce := "nn" }

/-- Adapter outcomes where every external call fails. -/
def oBase : Oracles :=
  { epochRes := .error "chain unavailable", keygen := kg0,
    saltRes := fun _ => .error "salt service unavailable",
    jwtToAddr := fun _ _ => .error "derive failed",
    genSeed := fun _ _ _ => .error "seed failed",
    balanceRes := .error "balance unavailable",
    proofRes := .error "prover unavailable",
    faucetRes := .error "faucet unavailable",
    signRes := .error "sign failed", execRes := .error "execute failed",
    decode := fun _ => .error "malformed token",
    now := 1000,
    serSalt := fun u => u.salt, serAddr := fun a => a.address, serProof := fun p => p.raw }

/-- Like `oBase` but the epoch fetch succeeds with epoch 7. -/
def oEpoch : Oracles := { oBase with epochRes := .ok 7 }

/-- A decodable payload with `exp`, `sub` and `aud` claims. -/
def payloadFix : JwtPayload := { exp := some 99, sub := some "s", aud := some "a" }

/-- Like `oBase` but address derivation succeeds. -/
def oDerive : Oracles :=
  { oBase with
    jwtToAddr := fun _ _ => .ok "0xabc",
    decode := fun _ => .ok payloadFix,
    genSeed := fun _ _ _ => .ok "seed1" }

/-- An empty session/durable store under prefix `zk_`. -/
def sessE : PrefStore := { pfx := "zk_", data := [] }

/-- A store holding one record under the prefix and one foreign record. -/
def sessP : PrefStore := { pfx := "zk_", data := [("zk_x", "1"), ("other", "2")] }

/-- A durable store holding only a salt record. -/
def durSaltOnly : PrefStore := { pfx := "zk_", data := [("zk_user_salt", "S")] }

/-- A session store holding only a proof record. -/
def sessProofOnly : PrefStore := { pfx := "zk_", data := [("zk_zk_proof", "PP")] }

/-- A session store holding only a (non-decodable) token record. -/
def sessTokOnly : PrefStore := { pfx := "zk_", data := [("zk_jwt_token", "junk")] }

/-- A session store holding a corrupted key-material triple plus a
non-decodable token record. -/
def sessCorruptKp : PrefStore :=
  { pfx := "zk_",
    data := [("zk_ephemeral_keypair", "bad"), ("zk_max_epoch", "1"),
             ("zk_randomness", "r"), ("zk_jwt_token", "junk")] }

/-- Restoration oracles where every parser fails. -/
def roBase : RestoreOracles :=
  { fromSecretKey := fun _ => .error "bad key", parseIntFn := fun _ => 0,
    decode := fun _ => .error "malformed", now := 1000,
    parseSalt := fun _ => .error "bad json", parseAddr := fun _ => .error "bad json",
    parseProof := fun _ => .error "bad json" }

/-- Like `roBase` but the salt fragment parses. -/
def roSalt : RestoreOracles :=
  { roBase with parseSalt := fun s => .ok { salt := s, createdAt := 7 } }

/-- Like `roBase` but the proof fragment parses. -/
def roProof : RestoreOracles :=
  { roBase with parseProof := fun s => .ok { raw := s } }

/-- A state that has reached step 5 (as after restoring valid salt and
address fragments with the session fragments lost). -/
def sFive : ZkLoginState := { initState with currentStep := 5 }

/-- A decoded token record. -/
def jOK : JwtState :=
  { token := "tok", payload := payloadFix, isValid := true, expiresAt := 99000 }

/-- A salt record. -/
def saltFix : UserSaltState := { salt := "7", createdAt := 0 }

/-- A state holding token and salt records (preconditions of step 5). -/
def sReady : ZkLoginState := { initState with jwt := some jOK, userSalt := some saltFix }

/-- A decode oracle whose payload carries `exp = 1` (expiry at 1000 ms). -/
def dExp1 : String → Except String JwtPayload :=
  fun _ => .ok { exp := some 1, sub := none, aud := none }

/-! ## Store lemmas -/

/-- A lookup misses entirely in a filtered store when the filter
predicate rejects the looked-up key. -/
theorem rawGet_filter_none (d : RawStore) (p : String → Bool) (k : String)
    (hk : p k = false) : rawGet (d.filter (fun kv => p kv.1)) k = none := by
  unfold rawGet
  rw [List.find?_eq_none.mpr]
  · intro kv hmem
    rcases List.mem_filter.mp hmem with ⟨_, hp⟩
    intro hbeq
    rw [show kv.1 = k from by simpa using hbeq] at hp
    rw [hk] at hp
    cases hp

/-- Filtering cannot create a binding: a missing key stays missing. -/
theorem rawGet_none_of_filter (d : RawStore) (p : String × String → Bool) (k : String)
    (h : rawGet d k = none) : rawGet (d.filter p) k = none := by
  unfold rawGet at h ⊢
  rw [List.find?_eq_none.mpr]
  · intro kv hmem
    exact List.find?_eq_none.mp (by
      cases hf : List.find? (fun kv => kv.1 == k) d
      · rfl
      · rw [hf] at h; cases h) kv (List.mem_of_mem_filter hmem)

/-- Lemma: `remove k` really erases the binding of `k`. -/
theorem PrefStore.get_remove_self (st : PrefStore) (k : String) :
    (st.remove k).get k = none := by
  unfold PrefStore.remove PrefStore.get rawRemove
  exact rawGet_filter_none st.data (fun kk => kk != st.pfx ++ k) (st.pfx ++ k) (by simp)

/-- Lemma: `remove` of any key preserves the absence of any key. -/
theorem PrefStore.get_remove_of_none (st : PrefStore) (k k2 : String)
    (h : st.get k = none) : (st.remove k2).get k = none := by
  unfold PrefStore.remove PrefStore.get rawRemove at *
  exact rawGet_none_of_filter st.data _ _ h

/-! ## C7: notification delivery -/

/-- C7: `emit` delivers the event synchronously to each subscribed
handler in subscription order (`on` appends, `emit` maps front to
back), and an exception thrown by a handler is caught inside the per-listener
try/catch, so it neither prevents delivery to the later handlers nor
propagates to the publisher (`emit` is total and returns the outcome of
every handler in the list, position by position). -/
theorem emit_ordered_isolated :
    (∀ (α : Type) (ls : List (EventEmitter.Handler α)) (h : EventEmitter.Handler α),
        EventEmitter.onSub ls h = ls ++ [h]) ∧
    (∀ (α : Type) (ls : List (EventEmitter.Handler α)) (a : α),
        EventEmitter.emit ls a = ls.map (fun h => EventEmitter.runHandler h a)) := by
  constructor
  · intro α ls h
    rfl
  · intro α ls a
    induction ls with
    | nil => rfl
    | cons h rest ih => simp [EventEmitter.emit, ih]

/-! ## C8: the maxEpoch window -/

/-- C8: whenever step 1 succeeds, the `maxEpoch` of the returned key
material equals the current epoch reported by the chain plus exactly 10
(`calculateMaxEpoch`). -/
theorem maxEpoch_is_epoch_plus_ten (s : ZkLoginState) (session durable : PrefStore)
    (o : Oracles) (e : Int) (kp : EphemeralKeyPairState)
    (he : o.epochRes = .ok e)
    (hr : (ZkLoginClient.generateEphemeralKeyPair s session durable o).res = .ok kp) :
    kp.maxEpoch = e + 10 := by
  simp only [ZkLoginClient.generateEphemeralKeyPair, he] at hr
  simp only [Except.ok.injEq] at hr
  rw [← hr]
  rfl

/-- Witness for C8 at epoch 7. -/
theorem maxEpoch_is_epoch_plus_ten_witness :
    (Utils.generateEphemeralKeyPair kg0 17).maxEpoch = 7 + 10 :=
  maxEpoch_is_epoch_plus_ten initState sessE durSaltOnly oEpoch 7
    (Utils.generateEphemeralKeyPair kg0 17) rfl rfl

/-! ## C9: token decoding and time -/

/-- The time-independent part of a decoded token record. -/
def jwtCore (j : JwtState) : String × JwtPayload × Int := (j.token, j.payload, j.expiresAt)

/-- C9 (amended): decoding is deterministic given the clock reading:
the raw token, payload and expiry timestamp of the decoded record
depend only on the raw token, so they are re-derivable from it at any
time; but `isValid` is computed from the current time (`Date.now()`)
compared with the `exp` claim, so two decodes of the same raw token at
different times can disagree on `isValid`. -/
theorem decode_deterministic_given_time :
    (∀ (d : String → Except String JwtPayload) (t : String) (n1 n2 : Int),
        (Utils.decodeJwtToken d n1 t).map jwtCore = (Utils.decodeJwtToken d n2 t).map jwtCore) ∧
    (∀ (d : String → Except String JwtPayload) (n : Int) (t : String) (j : JwtState),
        Utils.decodeJwtToken d n t = .ok j →
        j.isValid = (truthyInt j.payload.exp && decide (n < (j.payload.exp.getD 0) * 1000))) := by
  constructor
  · intro d t n1 n2
    unfold Utils.decodeJwtToken
    cases d t with
    | error e => rfl
    | ok p => simp [Except.map, jwtCore]
  · intro d n t j h
    unfold Utils.decodeJwtToken at h
    cases hd : d t with
    | error e => rw [hd] at h; cases h
    | ok p =>
      rw [hd] at h
      simp only [Except.ok.injEq] at h
      rw [← h]
      cases htr : truthyInt p.exp <;> simp [htr]

/-- The value `decodeJwtToken dExp1 500 "t"` produces. -/
def jValFix : JwtState :=
  { token := "t", payload := { exp := some 1, sub := none, aud := none },
    isValid := true, expiresAt := 1000 }

/-- Witness for C9 (amended) at a concrete decode. -/
theorem decode_deterministic_given_time_witness :
    jValFix.isValid =
      (truthyInt jValFix.payload.exp && decide ((500 : Int) < (jValFix.payload.exp.getD 0) * 1000)) :=
  decode_deterministic_given_time.2 dExp1 500 "t" jValFix rfl

/-- Counterexample for C9 as stated: the same raw token decoded at two
clock readings (before and after the `exp` instant) yields records that
differ on `isValid`, so the decoded record is not re-derivable from the
raw token alone. -/
theorem decode_isValid_time_dependent_cex :
    (Utils.decodeJwtToken dExp1 500 "t").toOption.map JwtState.isValid = some true ∧
    (Utils.decodeJwtToken dExp1 2000 "t").toOption.map JwtState.isValid = some false := by
  constructor <;> rfl

/-! ## C10: balance lookups never fail the caller -/

/-- C10: `getAddressBalance` returns the string "0" when the chain call
throws; consequently step 5 still succeeds (returning the derived
address with balance "0") and `refreshBalance` returns "0" rather than
raising, even when the balance RPC is unavailable. -/
theorem balance_failure_returns_zero :
    (∀ m, Utils.getAddressBalance (.error m) = "0") ∧
    (∀ (s : ZkLoginState) (session durable : PrefStore) (o : Oracles)
        (j : JwtState) (u : UserSaltState) (core : ZkLoginAddressState) (m : String),
        s.jwt = some j → s.userSalt = some u →
        Utils.generateZkLoginAddress o.jwtToAddr o.decode o.genSeed j.token u.salt = .ok core →
        o.balanceRes = .error m →
        (ZkLoginClient.generateAddress s session durable o).res =
          .ok { core with balance := some "0" }) ∧
    (∀ (s : ZkLoginState) (session durable : PrefStore) (o : Oracles)
        (a : ZkLoginAddressState) (m : String),
        s.zkLoginAddress = some a → o.balanceRes = .error m →
        (ZkLoginClient.refreshBalance s session durable o).res = .ok "0") := by
  refine ⟨fun m => rfl, ?_, ?_⟩
  · intro s session durable o j u core m hj hu hderive hbal
    simp [ZkLoginClient.generateAddress, hj, hu, hderive, Utils.getAddressBalance, hbal]
  · intro s session durable o a m ha hbal
    simp [ZkLoginClient.refreshBalance, ha, Utils.getAddressBalance, hbal]

/-- The address record derivation of the fixture oracles produces. -/
def coreFix : ZkLoginAddressState := { address := "0xabc", addressSeed := "seed1", balance := none }

/-- Witness for C10: with token and salt present and the balance RPC
failing, step 5 returns the derived address with balance "0". -/
theorem balance_failure_returns_zero_witness :
    (ZkLoginClient.generateAddress sReady sessE durSaltOnly oDerive).res =
      .ok { coreFix with balance := some "0" } :=
  balance_failure_returns_zero.2.1 sReady sessE durSaltOnly oDerive jOK saltFix coreFix
    "balance unavailable" rfl rfl rfl rfl

/-! ## C5: reset -/

/-- C5: `reset()` clears every record under the configured prefix in
both the durable and the ephemeral store (store `clear` filters out
every raw key the prefix matches), installs the fresh in-memory state
(`currentStep = 0`, `isReady = false`, no sub-records, no error), and
immediately auto-invokes step 1 on exactly that fresh state and those
cleared stores. -/
theorem reset_clears_and_restarts (s : ZkLoginState) (session durable : PrefStore)
    (o : Oracles) :
    (∀ k, strStartsWith session.pfx k = true → rawGet (PrefStore.clear session).data k = none) ∧
    (∀ k, strStartsWith durable.pfx k = true → rawGet (PrefStore.clear durable).data k = none) ∧
    ZkLoginClient.initState =
      { currentStep := 0, ephemeralKeyPair := none, jwt := none, userSalt := none,
        zkLoginAddress := none, zkProof := none, isReady := false, error := none } ∧
    ZkLoginClient.reset s session durable o =
      { ZkLoginClient.generateEphemeralKeyPair ZkLoginClient.initState
          (PrefStore.clear session) (PrefStore.clear durable) o with
        res := .ok () } := by
  refine ⟨?_, ?_, rfl, rfl⟩
  · intro k hk
    exact rawGet_filter_none session.data (fun kk => !(strStartsWith session.pfx kk)) k
      (by simp [hk])
  · intro k hk
    exact rawGet_filter_none durable.data (fun kk => !(strStartsWith durable.pfx kk)) k
      (by simp [hk])

/-- Witness for C5: on a concrete store, the prefixed record `zk_x` is
gone after the clear step of `reset` (the foreign record is kept by the
prefix filter of the source, which the model mirrors). -/
theorem reset_clears_and_restarts_witness :
    rawGet (PrefStore.clear sessP).data "zk_x" = none :=
  (reset_clears_and_restarts sFive sessP durSaltOnly oBase).1 "zk_x" (by decide)

/-! ## Restoration lemmas -/

open ZkLoginClient in
theorem restoreJwt_skip (s : ZkLoginState) (session : PrefStore) (ro : RestoreOracles)
    (h : truthy (session.get STORAGE_KEYS.JWT_TOKEN) = false) :
    restoreJwt s session ro = (s, session) := by
  simp [restoreJwt, h]

open ZkLoginClient in
theorem restoreSalt_skip (s : ZkLoginState) (durable : PrefStore) (ro : RestoreOracles)
    (h : truthy (durable.get STORAGE_KEYS.USER_SALT) = false) :
    restoreSalt s durable ro = (s, durable) := by
  simp [restoreSalt, h]

open ZkLoginClient in
theorem restoreAddr_skip (s : ZkLoginState) (durable : PrefStore) (ro : RestoreOracles)
    (h : truthy (durable.get STORAGE_KEYS.ZKLOGIN_ADDRESS) = false) :
    restoreAddr s durable ro = (s, durable) := by
  simp [restoreAddr, h]

open ZkLoginClient in
theorem restoreProof_skip (s : ZkLoginState) (session : PrefStore) (ro : RestoreOracles)
    (h : truthy (session.get STORAGE_KEYS.ZK_PROOF) = false) :
    restoreProof s session ro = (s, session) := by
  simp [restoreProof, h]

open ZkLoginClient in
theorem restoreSalt_ok (s : ZkLoginState) (durable : PrefStore) (ro : RestoreOracles)
    (str : String) (u : UserSaltState)
    (h1 : durable.get STORAGE_KEYS.USER_SALT = some str) (h2 : (str != "") = true)
    (h3 : ro.parseSalt str = .ok u) :
    restoreSalt s durable ro =
      ({ s with userSalt := some u, currentStep := max s.currentStep 4 }, durable) := by
  simp [restoreSalt, h1, truthy, h2, h3]

/-! ## C3: salt-only restoration -/

/-- C3 (amended): restoring from stores whose only recoverable fragment
is a valid salt record yields `currentStep = 4` (so `currentStep >= 4`
is TRUE, contrary to the claim as stated): restoring a fragment
bumps `currentStep` to at least the step number of that fragment via the
monotonic max, without requiring the earlier fragments to be present;
the missing key material additionally fire-and-forgets step 1. -/
theorem salt_only_restore_reaches_four (session durable : PrefStore)
    (ro : ZkLoginClient.RestoreOracles) (str : String) (u : UserSaltState)
    (hkp : (truthy (session.get STORAGE_KEYS.EPHEMERAL_KEYPAIR) &&
            truthy (session.get STORAGE_KEYS.MAX_EPOCH) &&
            truthy (session.get STORAGE_KEYS.RANDOMNESS)) = false)
    (hjt : truthy (session.get STORAGE_KEYS.JWT_TOKEN) = false)
    (hs1 : durable.get STORAGE_KEYS.USER_SALT = some str)
    (hs2 : (str != "") = true)
    (hs3 : ro.parseSalt str = .ok u)
    (haddr : truthy (durable.get STORAGE_KEYS.ZKLOGIN_ADDRESS) = false)
    (hzp : truthy (session.get STORAGE_KEYS.ZK_PROOF) = false) :
    (ZkLoginClient.restoreState initState session durable ro).state.currentStep = 4 ∧
    (ZkLoginClient.restoreState initState session durable ro).state.userSalt = some u ∧
    (ZkLoginClient.restoreState initState session durable ro).regen = true := by
  have hred : ZkLoginClient.restoreState initState session durable ro =
      { state := { initState with userSalt := some u, currentStep := max initState.currentStep 4 },
        session := session, durable := durable, regen := true } := by
    simp [ZkLoginClient.restoreState, ZkLoginClient.restoreTail, hkp,
      restoreJwt_skip, restoreSalt_ok, restoreAddr_skip, restoreProof_skip,
      hjt, hs1, hs2, hs3, haddr, hzp]
  rw [hred]
  refine ⟨rfl, rfl, rfl⟩

/-- Witness for C3 (amended) on a concrete salt-only pair of stores. -/
theorem salt_only_restore_reaches_four_witness :
    (ZkLoginClient.restoreState initState sessE durSaltOnly roSalt).state.currentStep = 4 :=
  (salt_only_restore_reaches_four sessE durSaltOnly roSalt "S"
    { salt := "S", createdAt := 7 } (by decide) (by decide) (by decide) (by decide)
    rfl (by decide) (by decide)).1

/-- Counterexample for C3 as stated: after restoring from a store pair
whose only recoverable fragment is a valid salt record, the condition
`currentStep >= 4` is true, not false. -/
theorem salt_only_restore_cex :
    truthy (sessE.get STORAGE_KEYS.EPHEMERAL_KEYPAIR) = false ∧
    truthy (sessE.get STORAGE_KEYS.JWT_TOKEN) = false ∧
    durSaltOnly.get STORAGE_KEYS.USER_SALT = some "S" ∧
    roSalt.parseSalt "S" = .ok { salt := "S", createdAt := 7 } ∧
    4 ≤ (ZkLoginClient.restoreState initState sessE durSaltOnly roSalt).state.currentStep := by
  refine ⟨rfl, rfl, by decide, rfl, by decide⟩

open ZkLoginClient in
theorem restoreSalt_preserves (s : ZkLoginState) (d : PrefStore) (ro : RestoreOracles) :
    (restoreSalt s d ro).1.jwt = s.jwt ∧ (restoreSalt s d ro).1.isReady = s.isReady ∧
    (restoreSalt s d ro).1.zkProof = s.zkProof := by
  cases h : truthy (d.get STORAGE_KEYS.USER_SALT) with
  | false => simp [restoreSalt, h]
  | true =>
    cases hp : ro.parseSalt ((d.get STORAGE_KEYS.USER_SALT).getD "") with
    | error e => simp [restoreSalt, h, hp]
    | ok u => simp [restoreSalt, h, hp]

open ZkLoginClient in
theorem restoreAddr_preserves (s : ZkLoginState) (d : PrefStore) (ro : RestoreOracles) :
    (restoreAddr s d ro).1.jwt = s.jwt ∧ (restoreAddr s d ro).1.isReady = s.isReady ∧
    (restoreAddr s d ro).1.zkProof = s.zkProof := by
  cases h : truthy (d.get STORAGE_KEYS.ZKLOGIN_ADDRESS) with
  | false => simp [restoreAddr, h]
  | true =>
    cases hp : ro.parseAddr ((d.get STORAGE_KEYS.ZKLOGIN_ADDRESS).getD "") with
    | error e => simp [restoreAddr, h, hp]
    | ok a => simp [restoreAddr, h, hp]

open ZkLoginClient in
theorem restoreProof_jwt_preserved (s : ZkLoginState) (session : PrefStore)
    (ro : RestoreOracles) : (restoreProof s session ro).1.jwt = s.jwt := by
  cases h : truthy (session.get STORAGE_KEYS.ZK_PROOF) with
  | false => simp [restoreProof, h]
  | true =>
    cases hp : ro.parseProof ((session.get STORAGE_KEYS.ZK_PROOF).getD "") with
    | error e => simp [restoreProof, h, hp]
    | ok zp => simp [restoreProof, h, hp]

open ZkLoginClient in
theorem restoreProof_get_none (s : ZkLoginState) (session : PrefStore)
    (ro : RestoreOracles) (k : String) (h : session.get k = none) :
    (restoreProof s session ro).2.get k = none := by
  cases hz : truthy (session.get STORAGE_KEYS.ZK_PROOF) with
  | false => simpa [restoreProof, hz] using h
  | true =>
    cases hp : ro.parseProof ((session.get STORAGE_KEYS.ZK_PROOF).getD "") with
    | error e =>
      simp only [restoreProof, hz, hp]
      exact PrefStore.get_remove_of_none session k _ h
    | ok zp => simpa [restoreProof, hz, hp] using h

/-! ## C6: corrupted token fragment -/

open ZkLoginClient in
theorem restoreTail_bad_token (s0 : ZkLoginState) (session durable : PrefStore)
    (ro : RestoreOracles) (tok : String) (regen : Bool)
    (hjtnone : s0.jwt = none)
    (htok : session.get STORAGE_KEYS.JWT_TOKEN = some tok)
    (htokT : (tok != "") = true)
    (hdec : (Utils.decodeJwtToken ro.decode ro.now tok).toOption = none) :
    (restoreTail s0 session durable ro regen).state.jwt = none ∧
    (restoreTail s0 session durable ro regen).session.get STORAGE_KEYS.JWT_TOKEN = none := by
  have hjwt : restoreJwt s0 session ro = (s0, session.remove STORAGE_KEYS.JWT_TOKEN) := by
    cases hd : Utils.decodeJwtToken ro.decode ro.now tok with
    | ok j => rw [hd] at hdec; simp [Except.toOption] at hdec
    | error e => simp [restoreJwt, htok, truthy, htokT, hd]
  simp only [restoreTail, hjwt]
  constructor
  · rw [restoreProof_jwt_preserved, (restoreAddr_preserves _ _ _).1,
      (restoreSalt_preserves _ _ _).1, hjtnone]
  · exact restoreProof_get_none _ _ _ _
      (PrefStore.get_remove_self session STORAGE_KEYS.JWT_TOKEN)

/-- C6 (amended): provided restoration actually reaches the token
branch — that is, the key-material triple is absent or incomplete, or
its persisted secret key rebuilds without throwing (with a corrupted
key-material fragment the method-level try/catch aborts the remaining
restoration and the token record is then NOT removed) — a persisted
token record that fails to decode is removed from the session store,
`state.jwt` stays absent, and restoration as a whole returns normally
(it is a total function in the model, mirroring the try/catch of the source:
no exception escapes initialization). -/
theorem corrupted_token_removed_when_reached (session durable : PrefStore)
    (ro : ZkLoginClient.RestoreOracles) (tok : String)
    (hkp : (truthy (session.get STORAGE_KEYS.EPHEMERAL_KEYPAIR) &&
            truthy (session.get STORAGE_KEYS.MAX_EPOCH) &&
            truthy (session.get STORAGE_KEYS.RANDOMNESS)) = true →
           ∃ kp, ro.fromSecretKey ((session.get STORAGE_KEYS.EPHEMERAL_KEYPAIR).getD "") = .ok kp)
    (htok : session.get STORAGE_KEYS.JWT_TOKEN = some tok)
    (htokT : (tok != "") = true)
    (hdec : (Utils.decodeJwtToken ro.decode ro.now tok).toOption = none) :
    (ZkLoginClient.restoreState initState session durable ro).state.jwt = none ∧
    (ZkLoginClient.restoreState initState session durable ro).session.get
      STORAGE_KEYS.JWT_TOKEN = none := by
  cases hc : (truthy (session.get STORAGE_KEYS.EPHEMERAL_KEYPAIR) &&
      truthy (session.get STORAGE_KEYS.MAX_EPOCH) &&
      truthy (session.get STORAGE_KEYS.RANDOMNESS)) with
  | false =>
    have hr : ZkLoginClient.restoreState initState session durable ro =
        ZkLoginClient.restoreTail initState session durable ro true := by
      simp [ZkLoginClient.restoreState, hc]
    rw [hr]
    exact restoreTail_bad_token initState session durable ro tok true rfl htok htokT hdec
  | true =>
    obtain ⟨kp, hok⟩ := hkp hc
    simp only [ZkLoginClient.restoreState, hc, hok]
    exact restoreTail_bad_token _ session durable ro tok false rfl htok htokT hdec

/-- Witness for C6 (amended): a session store holding only the
non-decodable token record `junk`; after restoration the record is gone
and no token is in memory. -/
theorem corrupted_token_removed_when_reached_witness :
    (ZkLoginClient.restoreState initState sessTokOnly sessE roBase).state.jwt = none ∧
    (ZkLoginClient.restoreState initState sessTokOnly sessE roBase).session.get
      STORAGE_KEYS.JWT_TOKEN = none :=
  corrupted_token_removed_when_reached sessTokOnly sessE roBase "junk"
    (fun h => absurd h (by decide)) (by decide) (by decide) (by decide)

/-- Counterexample for C6 as stated: an ephemeral store that contains a
non-decodable token record AND a corrupted key-material triple; the
keypair rebuild throws, the method-level catch aborts the rest of the
restoration, and the corrupted token record is NOT removed from the
store (though `state.jwt` is still absent). -/
theorem corrupted_token_kept_on_keypair_abort_cex :
    (Utils.decodeJwtToken roBase.decode roBase.now "junk").toOption = none ∧
    roBase.fromSecretKey "bad" = .error "bad key" ∧
    (ZkLoginClient.restoreState initState sessCorruptKp sessE roBase).session.get
      STORAGE_KEYS.JWT_TOKEN = some "junk" ∧
    (ZkLoginClient.restoreState initState sessCorruptKp sessE roBase).state.jwt = none := by
  refine ⟨rfl, rfl, by decide, rfl⟩

/-! ## C2: what isReady guarantees -/

/-- The invariant the code actually maintains: a ready state holds a
proof bundle. -/
def ReadyProof (s : ZkLoginState) : Prop := s.isReady = true → s.zkProof.isSome = true

theorem handleError_inv (s : ZkLoginState) (msg : String) (st : Option Nat)
    (h : ReadyProof s) : ReadyProof (ZkLoginClient.handleError s msg st).1 := by
  cases st <;> simpa [ReadyProof, ZkLoginClient.handleError] using h

set_option linter.unnecessarySimpa false in
theorem getZkProof_inv (s : ZkLoginState) (session durable : PrefStore) (o : Oracles)
    (h : ReadyProof s) : ReadyProof (ZkLoginClient.getZkProof s session durable o).state := by
  unfold ZkLoginClient.getZkProof
  repeat' split
  all_goals simpa [ReadyProof, ZkLoginClient.failStep, ZkLoginClient.handleError] using h

theorem generateAddress_inv (s : ZkLoginState) (session durable : PrefStore) (o : Oracles)
    (h : ReadyProof s) : ReadyProof (ZkLoginClient.generateAddress s session durable o).state := by
  unfold ZkLoginClient.generateAddress
  repeat' split
  all_goals
    first
      | simpa [ReadyProof, ZkLoginClient.failStep, ZkLoginClient.handleError] using h
      | exact getZkProof_inv _ _ _ _ (by simpa [ReadyProof] using h)

theorem generateSalt_inv (s : ZkLoginState) (session durable : PrefStore) (o : Oracles)
    (h : ReadyProof s) : ReadyProof (ZkLoginClient.generateSalt s session durable o).state := by
  unfold ZkLoginClient.generateSalt
  cases hs : o.saltRes (session.get STORAGE_KEYS.JWT_TOKEN) with
  | error e =>
    simp only [hs]
    simpa [ReadyProof, ZkLoginClient.failStep, ZkLoginClient.handleError] using h
  | ok salt =>
    simp only [hs]
    exact generateAddress_inv _ _ _ _ (by simpa [ReadyProof] using h)

theorem handleOAuthCallback_inv (s : ZkLoginState) (session durable : PrefStore)
    (o : Oracles) (params : ZkLoginClient.CallbackParams) (h : ReadyProof s) :
    ReadyProof (ZkLoginClient.handleOAuthCallback s session durable o params).state := by
  unfold ZkLoginClient.handleOAuthCallback
  split
  · simpa [ReadyProof, ZkLoginClient.failStep, ZkLoginClient.handleError] using h
  · split
    · simpa [ReadyProof, ZkLoginClient.failStep, ZkLoginClient.handleError] using h
    · cases hd : Utils.decodeJwtToken o.decode o.now (params.id_token.getD "") with
      | error e =>
        simp only [hd]
        simpa [ReadyProof, ZkLoginClient.failStep, ZkLoginClient.handleError] using h
      | ok jwtState =>
        simp only [hd]
        exact generateSalt_inv _ _ _ _ (by simpa [ReadyProof] using h)

theorem generateEphemeralKeyPair_inv (s : ZkLoginState) (session durable : PrefStore)
    (o : Oracles) (h : ReadyProof s) :
    ReadyProof (ZkLoginClient.generateEphemeralKeyPair s session durable o).state := by
  unfold ZkLoginClient.generateEphemeralKeyPair
  repeat' split
  all_goals
    simpa [ReadyProof, ZkLoginClient.failStep, ZkLoginClient.handleError] using h

theorem redirectToOAuth_inv (s : ZkLoginState) (session durable : PrefStore)
    (p : ZkLoginClient.Provider) (h : ReadyProof s) :
    ReadyProof (ZkLoginClient.redirectToOAuth s session durable p).state := by
  unfold ZkLoginClient.redirectToOAuth
  repeat' split
  all_goals
    simpa [ReadyProof, ZkLoginClient.failStep, ZkLoginClient.handleError] using h

theorem executeTransaction_inv (s : ZkLoginState) (session durable : PrefStore)
    (o : Oracles) (h : ReadyProof s) :
    ReadyProof (ZkLoginClient.executeTransaction s session durable o).state := by
  unfold ZkLoginClient.executeTransaction
  repeat' split
  all_goals
    simpa [ReadyProof, ZkLoginClient.failStep, ZkLoginClient.handleError] using h

theorem requestTestTokens_inv (s : ZkLoginState) (session durable : PrefStore)
    (o : Oracles) (h : ReadyProof s) :
    ReadyProof (ZkLoginClient.requestTestTokens s session durable o).state := by
  unfold ZkLoginClient.requestTestTokens
  repeat' split
  all_goals
    simpa [ReadyProof, ZkLoginClient.failStep, ZkLoginClient.handleError] using h

theorem refreshBalance_inv (s : ZkLoginState) (session durable : PrefStore)
    (o : Oracles) (h : ReadyProof s) :
    ReadyProof (ZkLoginClient.refreshBalance s session durable o).state := by
  unfold ZkLoginClient.refreshBalance
  repeat' split
  all_goals
    simpa [ReadyProof, ZkLoginClient.failStep, ZkLoginClient.handleError] using h

theorem reset_inv (s : ZkLoginState) (session durable : PrefStore) (o : Oracles) :
    ReadyProof (ZkLoginClient.reset s session durable o).state := by
  unfold ZkLoginClient.reset
  exact generateEphemeralKeyPair_inv _ _ _ _ (by intro hx; cases hx)

open ZkLoginClient in
theorem restoreJwt_inv (s : ZkLoginState) (session : PrefStore) (ro : RestoreOracles)
    (h : ReadyProof s) : ReadyProof (restoreJwt s session ro).1 := by
  cases ht : truthy (session.get STORAGE_KEYS.JWT_TOKEN) with
  | false => simpa [ZkLoginClient.restoreJwt, ht, ReadyProof] using h
  | true =>
    cases hd : Utils.decodeJwtToken ro.decode ro.now
        ((session.get STORAGE_KEYS.JWT_TOKEN).getD "") with
    | error e => simpa [ZkLoginClient.restoreJwt, ht, hd, ReadyProof] using h
    | ok j => simpa [ZkLoginClient.restoreJwt, ht, hd, ReadyProof] using h

open ZkLoginClient in
theorem restoreProof_inv (s : ZkLoginState) (session : PrefStore) (ro : RestoreOracles)
    (h : ReadyProof s) : ReadyProof (restoreProof s session ro).1 := by
  cases ht : truthy (session.get STORAGE_KEYS.ZK_PROOF) with
  | false => simpa [ZkLoginClient.restoreProof, ht, ReadyProof] using h
  | true =>
    cases hp : ro.parseProof ((session.get STORAGE_KEYS.ZK_PROOF).getD "") with
    | error e => simpa [ZkLoginClient.restoreProof, ht, hp, ReadyProof] using h
    | ok zp => simp [ZkLoginClient.restoreProof, ht, hp, ReadyProof]

open ZkLoginClient in
theorem restoreTail_inv (s : ZkLoginState) (session durable : PrefStore)
    (ro : RestoreOracles) (regen : Bool) (h : ReadyProof s) :
    ReadyProof (restoreTail s session durable ro regen).state := by
  unfold ZkLoginClient.restoreTail
  apply restoreProof_inv
  have h2 : ReadyProof (restoreJwt s session ro).1 := restoreJwt_inv s session ro h
  have h3 : ReadyProof (restoreSalt (restoreJwt s session ro).1 durable ro).1 := by
    intro hx
    obtain ⟨-, hb, hc⟩ := restoreSalt_preserves (restoreJwt s session ro).1 durable ro
    rw [hc]
    exact h2 (by rw [← hb]; exact hx)
  intro hx
  obtain ⟨-, hb, hc⟩ := restoreAddr_preserves
    (restoreSalt (restoreJwt s session ro).1 durable ro).1
    (restoreSalt (restoreJwt s session ro).1 durable ro).2 ro
  rw [hc]
  exact h3 (by rw [← hb]; exact hx)

open ZkLoginClient in
theorem restoreState_inv (s : ZkLoginState) (session durable : PrefStore)
    (ro : RestoreOracles) (h : ReadyProof s) :
    ReadyProof (restoreState s session durable ro).state := by
  cases hc : (truthy (session.get STORAGE_KEYS.EPHEMERAL_KEYPAIR) &&
      truthy (session.get STORAGE_KEYS.MAX_EPOCH) &&
      truthy (session.get STORAGE_KEYS.RANDOMNESS)) with
  | false =>
    have hr : restoreState s session durable ro = restoreTail s session durable ro true := by
      simp [ZkLoginClient.restoreState, hc]
    rw [hr]
    exact restoreTail_inv _ _ _ _ _ h
  | true =>
    cases hk : ro.fromSecretKey ((session.get STORAGE_KEYS.EPHEMERAL_KEYPAIR).getD "") with
    | error e =>
      have hr : restoreState s session durable ro =
          { state := s, session := session, durable := durable, regen := false } := by
        simp [ZkLoginClient.restoreState, hc, hk]
      rw [hr]
      exact h
    | ok kp =>
      simp only [ZkLoginClient.restoreState, hc, hk, if_pos]
      exact restoreTail_inv _ _ _ _ _ (by simpa [ReadyProof] using h)

theorem reachable_inv (w : World) (hw : Reachable w) : ReadyProof w.state := by
  induction hw with
  | init session durable ro =>
    exact restoreState_inv _ _ _ _ (by intro hx; cases hx)
  | stepKeypair w o _ ih => exact generateEphemeralKeyPair_inv w.state w.session w.durable o ih
  | stepRedirect w p _ ih => exact redirectToOAuth_inv w.state w.session w.durable p ih
  | stepCallback w o params _ ih =>
    exact handleOAuthCallback_inv w.state w.session w.durable o params ih
  | stepSalt w o _ ih => exact generateSalt_inv w.state w.session w.durable o ih
  | stepAddress w o _ ih => exact generateAddress_inv w.state w.session w.durable o ih
  | stepProof w o _ ih => exact getZkProof_inv w.state w.session w.durable o ih
  | stepExec w o _ ih => exact executeTransaction_inv w.state w.session w.durable o ih
  | stepFaucet w o _ ih => exact requestTestTokens_inv w.state w.session w.durable o ih
  | stepRefresh w o _ ih => exact refreshBalance_inv w.state w.session w.durable o ih
  | stepReset w o _ ih => exact reset_inv w.state w.session w.durable o

/-- C2 (amended): in every reachable world (restoration from arbitrary
store contents followed by any sequence of operation invocations),
`isReady = true` guarantees that the `zkProof` sub-record is present —
but NOT the other four sub-records: restoring a proof-only store, or
invoking step 6 directly after steps 1, 3, 4 (its preconditions do not
include the address record), yields a ready state without them. -/
theorem ready_implies_proof_present (w : World) (hw : Reachable w)
    (hr : w.state.isReady = true) : w.state.zkProof.isSome = true :=
  reachable_inv w hw hr

/-- The world restored from a proof-only session store. -/
def wProofOnly : World :=
  ZkLoginClient.RestoreOut.world
    (ZkLoginClient.restoreState initState sessProofOnly sessE roProof)

/-- Witness for C2 (amended): the proof-only world is ready, and the
theorem yields the presence of its proof bundle. -/
theorem ready_implies_proof_present_witness : wProofOnly.state.zkProof.isSome = true :=
  ready_implies_proof_present wProofOnly
    (Reachable.init sessProofOnly sessE roProof) (by decide)

/-- Counterexample for C2 as stated: a reachable world (restored from a
store whose only fragment is a valid proof record) in which
`isReady = true` while the token, key-material, salt and address
sub-records are all absent. -/
theorem ready_without_other_records_cex :
    Reachable wProofOnly ∧ wProofOnly.state.isReady = true ∧
    wProofOnly.state.jwt = none ∧ wProofOnly.state.ephemeralKeyPair = none ∧
    wProofOnly.state.userSalt = none ∧ wProofOnly.state.zkLoginAddress = none :=
  ⟨Reachable.init sessProofOnly sessE roProof, by decide, by decide, by decide,
    by decide, by decide⟩

/-! ## C1: what a step failure does -/

/-- The shape the amended claim asserts of every step failure: the
thrown error carries the stable code of the step and the step number, the
message is recorded into `state.error`, an `error` notification is
emitted, and `currentStep` is OVERWRITTEN with the number of the
failing step. -/
def FailsTagged {α : Type} (r : StepResult α) (e : ZkLoginError) (code : String) (k : Nat) : Prop :=
  e.code = some code ∧ e.step = some k ∧ r.state.currentStep = k ∧
  r.state.error = some e.msg ∧ Event.error e.msg ∈ r.events

theorem failStep_tagged {α : Type} (s : ZkLoginState) (session durable : PrefStore)
    (calls : List String) (msg code : String) (k : Nat) (e : ZkLoginError)
    (h : (ZkLoginClient.failStep (α := α) s session durable calls msg code k).res = .error e) :
    FailsTagged (ZkLoginClient.failStep (α := α) s session durable calls msg code k) e code k := by
  have he : e = { msg := msg, code := some code, step := some k } := by
    simpa [ZkLoginClient.failStep] using h.symm
  subst he
  refine ⟨rfl, rfl, rfl, rfl, ?_⟩
  simp [ZkLoginClient.failStep, ZkLoginClient.handleError]

theorem genKeyPair_fail_aux (s : ZkLoginState) (session durable : PrefStore) (o : Oracles)
    (e : ZkLoginError)
    (h : (ZkLoginClient.generateEphemeralKeyPair s session durable o).res = .error e) :
    FailsTagged (ZkLoginClient.generateEphemeralKeyPair s session durable o) e
      "KEYPAIR_GENERATION_FAILED" 1 := by
  cases hx : o.epochRes with
  | error m =>
    have hred : ZkLoginClient.generateEphemeralKeyPair s session durable o =
        ZkLoginClient.failStep s session durable ["epoch"]
          ("Failed to generate ephemeral key pair: " ++ m) "KEYPAIR_GENERATION_FAILED" 1 := by
      simp [ZkLoginClient.generateEphemeralKeyPair, hx]
    rw [hred] at h ⊢
    exact failStep_tagged _ _ _ _ _ _ _ _ h
  | ok v => simp [ZkLoginClient.generateEphemeralKeyPair, hx] at h

theorem redirect_fail_aux (s : ZkLoginState) (session durable : PrefStore)
    (p : ZkLoginClient.Provider) (e : ZkLoginError)
    (h : (ZkLoginClient.redirectToOAuth s session durable p).res = .error e) :
    FailsTagged (ZkLoginClient.redirectToOAuth s session durable p) e
      "OAUTH_REDIRECT_FAILED" 2 := by
  cases hkp : s.ephemeralKeyPair with
  | none =>
    have hred : ZkLoginClient.redirectToOAuth s session durable p =
        ZkLoginClient.failStep s session durable []
          "Failed to redirect to OAuth: Ephemeral key pair not generated yet"
          "OAUTH_REDIRECT_FAILED" 2 := by
      simp [ZkLoginClient.redirectToOAuth, hkp]
    rw [hred] at h ⊢
    exact failStep_tagged _ _ _ _ _ _ _ _ h
  | some kp =>
    cases hurl : (ZkLoginClient.authUrlOf p == "") with
    | true =>
      have hred : ZkLoginClient.redirectToOAuth s session durable p =
          ZkLoginClient.failStep s session durable []
            "Failed to redirect to OAuth: Invalid provider" "OAUTH_REDIRECT_FAILED" 2 := by
        simp [ZkLoginClient.redirectToOAuth, hkp, hurl]
      rw [hred] at h ⊢
      exact failStep_tagged _ _ _ _ _ _ _ _ h
    | false => simp [ZkLoginClient.redirectToOAuth, hkp, hurl] at h

theorem callback_fail_aux (s : ZkLoginState) (session durable : PrefStore) (o : Oracles)
    (params : ZkLoginClient.CallbackParams) (e : ZkLoginError)
    (h : (ZkLoginClient.handleOAuthCallback s session durable o params).res = .error e) :
    FailsTagged (ZkLoginClient.handleOAuthCallback s session durable o params) e
      "OAUTH_CALLBACK_FAILED" 3 := by
  cases herr : truthy params.error with
  | true =>
    have hred : ZkLoginClient.handleOAuthCallback s session durable o params =
        ZkLoginClient.failStep s session durable []
          ("Failed to handle OAuth callback: OAuth error: " ++ params.error.getD "")
          "OAUTH_CALLBACK_FAILED" 3 := by
      simp [ZkLoginClient.handleOAuthCallback, herr]
    rw [hred] at h ⊢
    exact failStep_tagged _ _ _ _ _ _ _ _ h
  | false =>
    cases hid : truthy params.id_token with
    | false =>
      have hred : ZkLoginClient.handleOAuthCallback s session durable o params =
          ZkLoginClient.failStep s session durable []
            "Failed to handle OAuth callback: No id_token received from OAuth provider"
            "OAUTH_CALLBACK_FAILED" 3 := by
        simp [ZkLoginClient.handleOAuthCallback, herr, hid]
      rw [hred] at h ⊢
      exact failStep_tagged _ _ _ _ _ _ _ _ h
    | true =>
      cases hd : Utils.decodeJwtToken o.decode o.now (params.id_token.getD "") with
      | error de =>
        have hred : ZkLoginClient.handleOAuthCallback s session durable o params =
            ZkLoginClient.failStep s session durable []
              ("Failed to handle OAuth callback: " ++ de) "OAUTH_CALLBACK_FAILED" 3 := by
          simp [ZkLoginClient.handleOAuthCallback, herr, hid, hd]
        rw [hred] at h ⊢
        exact failStep_tagged _ _ _ _ _ _ _ _ h
      | ok j => simp [ZkLoginClient.handleOAuthCallback, herr, hid, hd] at h

theorem salt_fail_aux (s : ZkLoginState) (session durable : PrefStore) (o : Oracles)
    (e : ZkLoginError)
    (h : (ZkLoginClient.generateSalt s session durable o).res = .error e) :
    FailsTagged (ZkLoginClient.generateSalt s session durable o) e
      "SALT_GENERATION_FAILED" 4 := by
  cases hx : o.saltRes (session.get STORAGE_KEYS.JWT_TOKEN) with
  | error m =>
    have hred : ZkLoginClient.generateSalt s session durable o =
        ZkLoginClient.failStep s session durable ["saltService"]
          ("Failed to generate salt: " ++ m) "SALT_GENERATION_FAILED" 4 := by
      simp [ZkLoginClient.generateSalt, hx]
    rw [hred] at h ⊢
    exact failStep_tagged _ _ _ _ _ _ _ _ h
  | ok v => simp [ZkLoginClient.generateSalt, hx] at h

theorem address_fail_aux (s : ZkLoginState) (session durable : PrefStore) (o : Oracles)
    (e : ZkLoginError)
    (h : (ZkLoginClient.generateAddress s session durable o).res = .error e) :
    FailsTagged (ZkLoginClient.generateAddress s session durable o) e
      "ADDRESS_GENERATION_FAILED" 5 := by
  cases hj : s.jwt with
  | none =>
    have hred : ZkLoginClient.generateAddress s session durable o =
        ZkLoginClient.failStep s session durable []
          "Failed to generate address: JWT not available" "ADDRESS_GENERATION_FAILED" 5 := by
      simp [ZkLoginClient.generateAddress, hj]
    rw [hred] at h ⊢
    exact failStep_tagged _ _ _ _ _ _ _ _ h
  | some j =>
    cases hu : s.userSalt with
    | none =>
      have hred : ZkLoginClient.generateAddress s session durable o =
          ZkLoginClient.failStep s session durable []
            "Failed to generate address: User salt not generated"
            "ADDRESS_GENERATION_FAILED" 5 := by
        simp [ZkLoginClient.generateAddress, hj, hu]
      rw [hred] at h ⊢
      exact failStep_tagged _ _ _ _ _ _ _ _ h
    | some u =>
      cases hd : Utils.generateZkLoginAddress o.jwtToAddr o.decode o.genSeed j.token u.salt with
      | error de =>
        have hred : ZkLoginClient.generateAddress s session durable o =
            ZkLoginClient.failStep s session durable []
              ("Failed to generate address: " ++ de) "ADDRESS_GENERATION_FAILED" 5 := by
          simp [ZkLoginClient.generateAddress, hj, hu, hd]
        rw [hred] at h ⊢
        exact failStep_tagged _ _ _ _ _ _ _ _ h
      | ok core => simp [ZkLoginClient.generateAddress, hj, hu, hd] at h

theorem proof_fail_aux (s : ZkLoginState) (session durable : PrefStore) (o : Oracles)
    (e : ZkLoginError)
    (h : (ZkLoginClient.getZkProof s session durable o).res = .error e) :
    FailsTagged (ZkLoginClient.getZkProof s session durable o) e "ZK_PROOF_FAILED" 6 := by
  cases hkp : s.ephemeralKeyPair with
  | none =>
    have hred : ZkLoginClient.getZkProof s session durable o =
        ZkLoginClient.failStep s session durable []
          "Failed to get ZK proof: Ephemeral key pair not available" "ZK_PROOF_FAILED" 6 := by
      simp [ZkLoginClient.getZkProof, hkp]
    rw [hred] at h ⊢
    exact failStep_tagged _ _ _ _ _ _ _ _ h
  | some kp =>
    cases hj : s.jwt with
    | none =>
      have hred : ZkLoginClient.getZkProof s session durable o =
          ZkLoginClient.failStep s session durable []
            "Failed to get ZK proof: JWT not available" "ZK_PROOF_FAILED" 6 := by
        simp [ZkLoginClient.getZkProof, hkp, hj]
      rw [hred] at h ⊢
      exact failStep_tagged _ _ _ _ _ _ _ _ h
    | some j =>
      cases hu : s.userSalt with
      | none =>
        have hred : ZkLoginClient.getZkProof s session durable o =
            ZkLoginClient.failStep s session durable []
              "Failed to get ZK proof: User salt not available" "ZK_PROOF_FAILED" 6 := by
          simp [ZkLoginClient.getZkProof, hkp, hj, hu]
        rw [hred] at h ⊢
        exact failStep_tagged _ _ _ _ _ _ _ _ h
      | some u =>
        cases hp : o.proofRes with
        | error m =>
          have hred : ZkLoginClient.getZkProof s session durable o =
              ZkLoginClient.failStep s session durable ["prover"]
                ("Failed to get ZK proof: " ++ m) "ZK_PROOF_FAILED" 6 := by
            simp [ZkLoginClient.getZkProof, hkp, hj, hu, hp]
          rw [hred] at h ⊢
          exact failStep_tagged _ _ _ _ _ _ _ _ h
        | ok zp => simp [ZkLoginClient.getZkProof, hkp, hj, hu, hp] at h

theorem exec_fail_aux (s : ZkLoginState) (session durable : PrefStore) (o : Oracles)
    (e : ZkLoginError)
    (h : (ZkLoginClient.executeTransaction s session durable o).res = .error e) :
    FailsTagged (ZkLoginClient.executeTransaction s session durable o) e
      "TRANSACTION_EXECUTION_FAILED" 7 := by
  cases hr : s.isReady with
  | false =>
    have hred : ZkLoginClient.executeTransaction s session durable o =
        ZkLoginClient.failStep s session durable []
          "Failed to execute transaction: ZkLogin not ready. Complete all steps first."
          "TRANSACTION_EXECUTION_FAILED" 7 := by
      simp [ZkLoginClient.executeTransaction, hr]
    rw [hred] at h ⊢
    exact failStep_tagged _ _ _ _ _ _ _ _ h
  | true =>
    have hmiss : ∀ calls2 msg2,
        (ZkLoginClient.executeTransaction s session durable o =
          ZkLoginClient.failStep s session durable calls2 msg2
            "TRANSACTION_EXECUTION_FAILED" 7) →
        FailsTagged (ZkLoginClient.executeTransaction s session durable o) e
          "TRANSACTION_EXECUTION_FAILED" 7 := by
      intro calls2 msg2 hred
      rw [hred] at h ⊢
      exact failStep_tagged _ _ _ _ _ _ _ _ h
    cases hkp : s.ephemeralKeyPair with
    | none =>
      exact hmiss []
        "Failed to execute transaction: Missing required state for transaction execution"
        (by simp [ZkLoginClient.executeTransaction, hr, hkp])
    | some kp =>
      cases hzp : s.zkProof with
      | none =>
        exact hmiss []
          "Failed to execute transaction: Missing required state for transaction execution"
          (by simp [ZkLoginClient.executeTransaction, hr, hkp, hzp])
      | some zp =>
        cases ha : s.zkLoginAddress with
        | none =>
          exact hmiss []
            "Failed to execute transaction: Missing required state for transaction execution"
            (by simp [ZkLoginClient.executeTransaction, hr, hkp, hzp, ha])
        | some a =>
          cases hs : o.signRes with
          | error m =>
            exact hmiss ["sign"] ("Failed to execute transaction: " ++ m)
              (by simp [ZkLoginClient.executeTransaction, hr, hkp, hzp, ha, hs])
          | ok u =>
            cases hx : o.execRes with
            | error m =>
              exact hmiss ["sign", "execute"] ("Failed to execute transaction: " ++ m)
                (by simp [ZkLoginClient.executeTransaction, hr, hkp, hzp, ha, hs, hx])
            | ok digest =>
              simp [ZkLoginClient.executeTransaction, hr, hkp, hzp, ha, hs, hx] at h

/-- C1 (amended): for each of the seven step operations, every failing
invocation records the message into `state.error`, emits an `error`
notification, re-raises a `ZkLoginError` carrying the stable code of
that step and the step number — and SETS `currentStep` to the own
number of the failing step (the `handleError` in the source assigns
`this.state.currentStep = step`), so the resulting `currentStep` CAN be
smaller than before the invocation, contrary to the claim as stated. -/
theorem step_failures_tagged_set_step :
    (∀ (s : ZkLoginState) (session durable : PrefStore) (o : Oracles) (e : ZkLoginError),
      (ZkLoginClient.generateEphemeralKeyPair s session durable o).res = .error e →
      FailsTagged (ZkLoginClient.generateEphemeralKeyPair s session durable o) e
        "KEYPAIR_GENERATION_FAILED" 1) ∧
    (∀ (s : ZkLoginState) (session durable : PrefStore) (p : ZkLoginClient.Provider)
        (e : ZkLoginError),
      (ZkLoginClient.redirectToOAuth s session durable p).res = .error e →
      FailsTagged (ZkLoginClient.redirectToOAuth s session durable p) e
        "OAUTH_REDIRECT_FAILED" 2) ∧
    (∀ (s : ZkLoginState) (session durable : PrefStore) (o : Oracles)
        (params : ZkLoginClient.CallbackParams) (e : ZkLoginError),
      (ZkLoginClient.handleOAuthCallback s session durable o params).res = .error e →
      FailsTagged (ZkLoginClient.handleOAuthCallback s session durable o params) e
        "OAUTH_CALLBACK_FAILED" 3) ∧
    (∀ (s : ZkLoginState) (session durable : PrefStore) (o : Oracles) (e : ZkLoginError),
      (ZkLoginClient.generateSalt s session durable o).res = .error e →
      FailsTagged (ZkLoginClient.generateSalt s session durable o) e
        "SALT_GENERATION_FAILED" 4) ∧
    (∀ (s : ZkLoginState) (session durable : PrefStore) (o : Oracles) (e : ZkLoginError),
      (ZkLoginClient.generateAddress s session durable o).res = .error e →
      FailsTagged (ZkLoginClient.generateAddress s session durable o) e
        "ADDRESS_GENERATION_FAILED" 5) ∧
    (∀ (s : ZkLoginState) (session durable : PrefStore) (o : Oracles) (e : ZkLoginError),
      (ZkLoginClient.getZkProof s session durable o).res = .error e →
      FailsTagged (ZkLoginClient.getZkProof s session durable o) e "ZK_PROOF_FAILED" 6) ∧
    (∀ (s : ZkLoginState) (session durable : PrefStore) (o : Oracles) (e : ZkLoginError),
      (ZkLoginClient.executeTransaction s session durable o).res = .error e →
      FailsTagged (ZkLoginClient.executeTransaction s session durable o) e
        "TRANSACTION_EXECUTION_FAILED" 7) :=
  ⟨genKeyPair_fail_aux, redirect_fail_aux, callback_fail_aux, salt_fail_aux,
    address_fail_aux, proof_fail_aux, exec_fail_aux⟩

/-- The parsed callback of a provider that returned an error. -/
def paramsDenied : ZkLoginClient.CallbackParams :=
  { id_token := none, access_token := none, state := none, error := some "denied" }

/-- Witness for C1 (amended): one concrete failing invocation of each
of the seven step operations, with the hypotheses discharged by
evaluation. -/
theorem step_failures_tagged_set_step_witness :
    FailsTagged (ZkLoginClient.generateEphemeralKeyPair initState sessE sessE oBase)
      { msg := "Failed to generate ephemeral key pair: chain unavailable",
        code := some "KEYPAIR_GENERATION_FAILED", step := some 1 }
      "KEYPAIR_GENERATION_FAILED" 1 ∧
    FailsTagged (ZkLoginClient.redirectToOAuth initState sessE sessE .google)
      { msg := "Failed to redirect to OAuth: Ephemeral key pair not generated yet",
        code := some "OAUTH_REDIRECT_FAILED", step := some 2 }
      "OAUTH_REDIRECT_FAILED" 2 ∧
    FailsTagged (ZkLoginClient.handleOAuthCallback initState sessE sessE oBase paramsDenied)
      { msg := "Failed to handle OAuth callback: OAuth error: denied",
        code := some "OAUTH_CALLBACK_FAILED", step := some 3 }
      "OAUTH_CALLBACK_FAILED" 3 ∧
    FailsTagged (ZkLoginClient.generateSalt initState sessE sessE oBase)
      { msg := "Failed to generate salt: salt service unavailable",
        code := some "SALT_GENERATION_FAILED", step := some 4 }
      "SALT_GENERATION_FAILED" 4 ∧
    FailsTagged (ZkLoginClient.generateAddress initState sessE sessE oBase)
      { msg := "Failed to generate address: JWT not available",
        code := some "ADDRESS_GENERATION_FAILED", step := some 5 }
      "ADDRESS_GENERATION_FAILED" 5 ∧
    FailsTagged (ZkLoginClient.getZkProof initState sessE sessE oBase)
      { msg := "Failed to get ZK proof: Ephemeral key pair not available",
        code := some "ZK_PROOF_FAILED", step := some 6 }
      "ZK_PROOF_FAILED" 6 ∧
    FailsTagged (ZkLoginClient.executeTransaction initState sessE sessE oBase)
      { msg := "Failed to execute transaction: ZkLogin not ready. Complete all steps first.",
        code := some "TRANSACTION_EXECUTION_FAILED", step := some 7 }
      "TRANSACTION_EXECUTION_FAILED" 7 :=
  ⟨step_failures_tagged_set_step.1 initState sessE sessE oBase _ rfl,
    step_failures_tagged_set_step.2.1 initState sessE sessE .google _ rfl,
    step_failures_tagged_set_step.2.2.1 initState sessE sessE oBase paramsDenied _ rfl,
    step_failures_tagged_set_step.2.2.2.1 initState sessE sessE oBase _ rfl,
    step_failures_tagged_set_step.2.2.2.2.1 initState sessE sessE oBase _ rfl,
    step_failures_tagged_set_step.2.2.2.2.2.1 initState sessE sessE oBase _ rfl,
    step_failures_tagged_set_step.2.2.2.2.2.2 initState sessE sessE oBase _ rfl⟩

/-- Counterexample for C1 as stated: from a state at step 5, a failing
step-1 invocation (epoch fetch down) leaves `currentStep = 1 < 5` — the
resulting `currentStep` IS smaller than before the invocation. -/
theorem failure_decrements_currentStep_cex :
    (ZkLoginClient.generateEphemeralKeyPair sFive sessE sessE oBase).res.toOption = none ∧
    (ZkLoginClient.generateEphemeralKeyPair sFive sessE sessE oBase).state.currentStep
      < sFive.currentStep := by
  refine ⟨rfl, by decide⟩

/-! ## C4: precondition checks -/

/-- C4 (amended): steps 5 and 6 do check their precondition sub-records
before any external call — a missing record fails with the generic
tagged error of the step and an empty external-call log — but the failure
SETS `currentStep` to the number of the failing step instead of leaving
it unchanged; and step 4 performs NO precondition check at all: its
first external call is always the salt-service request, issued even
when no token is present anywhere. -/
theorem precondition_behavior :
    (∀ (s : ZkLoginState) (session durable : PrefStore) (o : Oracles), s.jwt = none →
      (ZkLoginClient.generateAddress s session durable o).calls = [] ∧
      (ZkLoginClient.generateAddress s session durable o).res =
        .error { msg := "Failed to generate address: JWT not available",
                 code := some "ADDRESS_GENERATION_FAILED", step := some 5 } ∧
      (ZkLoginClient.generateAddress s session durable o).state.currentStep = 5) ∧
    (∀ (s : ZkLoginState) (session durable : PrefStore) (o : Oracles) (j : JwtState),
      s.jwt = some j → s.userSalt = none →
      (ZkLoginClient.generateAddress s session durable o).calls = [] ∧
      (ZkLoginClient.generateAddress s session durable o).res =
        .error { msg := "Failed to generate address: User salt not generated",
                 code := some "ADDRESS_GENERATION_FAILED", step := some 5 } ∧
      (ZkLoginClient.generateAddress s session durable o).state.currentStep = 5) ∧
    (∀ (s : ZkLoginState) (session durable : PrefStore) (o : Oracles),
      s.ephemeralKeyPair = none →
      (ZkLoginClient.getZkProof s session durable o).calls = [] ∧
      (ZkLoginClient.getZkProof s session durable o).res =
        .error { msg := "Failed to get ZK proof: Ephemeral key pair not available",
                 code := some "ZK_PROOF_FAILED", step := some 6 } ∧
      (ZkLoginClient.getZkProof s session durable o).state.currentStep = 6) ∧
    (∀ (s : ZkLoginState) (session durable : PrefStore) (o : Oracles)
        (kp : EphemeralKeyPairState),
      s.ephemeralKeyPair = some kp → s.jwt = none →
      (ZkLoginClient.getZkProof s session durable o).calls = [] ∧
      (ZkLoginClient.getZkProof s session durable o).res =
        .error { msg := "Failed to get ZK proof: JWT not available",
                 code := some "ZK_PROOF_FAILED", step := some 6 } ∧
      (ZkLoginClient.getZkProof s session durable o).state.currentStep = 6) ∧
    (∀ (s : ZkLoginState) (session durable : PrefStore) (o : Oracles)
        (kp : EphemeralKeyPairState) (j : JwtState),
      s.ephemeralKeyPair = some kp → s.jwt = some j → s.userSalt = none →
      (ZkLoginClient.getZkProof s session durable o).calls = [] ∧
      (ZkLoginClient.getZkProof s session durable o).res =
        .error { msg := "Failed to get ZK proof: User salt not available",
                 code := some "ZK_PROOF_FAILED", step := some 6 } ∧
      (ZkLoginClient.getZkProof s session durable o).state.currentStep = 6) ∧
    (∀ (s : ZkLoginState) (session durable : PrefStore) (o : Oracles),
      (ZkLoginClient.generateSalt s session durable o).calls.head? = some "saltService") := by
  refine ⟨?_, ?_, ?_, ?_, ?_, ?_⟩
  · intro s session durable o hj
    refine ⟨?_, ?_, ?_⟩ <;>
      simp [ZkLoginClient.generateAddress, hj, ZkLoginClient.failStep,
        ZkLoginClient.handleError]
  · intro s session durable o j hj hu
    refine ⟨?_, ?_, ?_⟩ <;>
      simp [ZkLoginClient.generateAddress, hj, hu, ZkLoginClient.failStep,
        ZkLoginClient.handleError]
  · intro s session durable o hkp
    refine ⟨?_, ?_, ?_⟩ <;>
      simp [ZkLoginClient.getZkProof, hkp, ZkLoginClient.failStep, ZkLoginClient.handleError]
  · intro s session durable o kp hkp hj
    refine ⟨?_, ?_, ?_⟩ <;>
      simp [ZkLoginClient.getZkProof, hkp, hj, ZkLoginClient.failStep,
        ZkLoginClient.handleError]
  · intro s session durable o kp j hkp hj hu
    refine ⟨?_, ?_, ?_⟩ <;>
      simp [ZkLoginClient.getZkProof, hkp, hj, hu, ZkLoginClient.failStep,
        ZkLoginClient.handleError]
  · intro s session durable o
    cases hx : o.saltRes (session.get STORAGE_KEYS.JWT_TOKEN) with
    | error m => simp [ZkLoginClient.generateSalt, hx, ZkLoginClient.failStep]
    | ok v => simp [ZkLoginClient.generateSalt, hx]

/-- Witness for C4 (amended): step 5 invoked on the fresh state (no
token) and step 4 invoked on an empty session store. -/
theorem precondition_behavior_witness :
    (ZkLoginClient.generateAddress initState sessE sessE oBase).state.currentStep = 5 ∧
    (ZkLoginClient.generateAddress initState sessE sessE oBase).calls = [] ∧
    (ZkLoginClient.generateSalt initState sessE sessE oBase).calls.head? =
      some "saltService" :=
  ⟨(precondition_behavior.1 initState sessE sessE oBase rfl).2.2,
    (precondition_behavior.1 initState sessE sessE oBase rfl).1,
    precondition_behavior.2.2.2.2.2 initState sessE sessE oBase⟩

/-- Counterexample for C4 as stated: invoking step 5 on the fresh state
(currentStep 0, token absent) does throw a precondition error, but it
does NOT leave `currentStep` unchanged — `currentStep` jumps to 5; and
invoking step 4 without any token still issues the salt-service call,
so the failure is not raised before the external call. -/
theorem precondition_moves_currentStep_cex :
    (ZkLoginClient.generateAddress initState sessE sessE oBase).res.toOption = none ∧
    ZkLoginClient.initState.currentStep = 0 ∧
    (ZkLoginClient.generateAddress initState sessE sessE oBase).state.currentStep = 5 ∧
    sessE.get STORAGE_KEYS.JWT_TOKEN = none ∧
    (ZkLoginClient.generateSalt initState sessE sessE oBase).calls = ["saltService"] := by
  refine ⟨rfl, rfl, by decide, by decide, by decide⟩
